import Mathlib

/-!
Verification development for the camera-rtsp-service repository: a shallow
embedding, in Lean, of the decision logic of `config.py`, `pipeline.py`,
`detect.py` and the preflight orchestration of `cli.py`, together with
theorems settling the specification's claims about that logic.

Python strings are modelled through their character lists; Python floats are
modelled as exact rationals; the GStreamer engine (element availability,
property introspection, bus messages, the wall clock) is modelled as explicit
oracle parameters.

On the rational model of floats: the source's binary64 arithmetic rounds
after every operation, so an exact-rational value can differ from the
program's by a relative error on the order of 2^-52 per operation.  Every
theorem below that evaluates the float-carrying definitions at concrete
inputs therefore uses inputs whose intermediate values sit far (≥ 0.1) from
an integer truncation boundary, where a relative error below 1e-12 cannot
change the truncated result, so the modelled value coincides with the value
the program computes.  Inputs whose exact product is an integer (e.g.
12000000 · 0.00007 = 840) are avoided: there the double rounding of the
literal 0.00007 makes the program truncate to 839, not 840.
-/

namespace CamRtsp

/-! ### Python string primitives, modelled over character lists -/

/-- Python `str.lower()` (the repository only ever lowercases ASCII). -/
def pyLower (s : String) : String := String.mk (s.data.map Char.toLower)

def isSpaceChar (c : Char) : Bool := c = ' ' ∨ c = '\t' ∨ c = '\n' ∨ c = '\r'

/-- Python `str.strip()` with no argument: drop leading and trailing whitespace. -/
def pyStrip (s : String) : String :=
  String.mk (((s.data.dropWhile isSpaceChar).reverse.dropWhile isSpaceChar).reverse)

/-- Drop the first `n` characters, as Python slicing `s[n:]` does. -/
def strDropChars (s : String) (n : Nat) : String := String.mk (s.data.drop n)

/-- Whether `pre` is a prefix of `s`, as Python `s.startswith(pre)`. -/
def startsWithStr (s pre : String) : Bool := s.data.take pre.data.length = pre.data

def splitCommaAux : List Char → List Char → List String
  | acc, [] => [String.mk acc.reverse]
  | acc, ',' :: t => String.mk acc.reverse :: splitCommaAux [] t
  | acc, c :: t => splitCommaAux (c :: acc) t

/-- Python `s.split(',')`. -/
def pySplitComma (s : String) : List String := splitCommaAux [] s.data

/-- Python `s.split('__', 1)` when `'__'` occurs: the text before the first
`'__'` and the text after it; `none` when `'__'` does not occur. -/
def splitUU : List Char → Option (List Char × List Char)
  | [] => none
  | '_' :: '_' :: t => some ([], t)
  | c :: t => (splitUU t).map (fun p => (c :: p.1, p.2))

def joinSep (sep : String) : List String → String
  | [] => ""
  | [x] => x
  | x :: t => x ++ sep ++ joinSep sep t

/-- Value of a nonempty all-digit character list (`none` otherwise). -/
def digitsVal (l : List Char) : Option Nat :=
  if l ≠ [] ∧ l.all Char.isDigit then
    some (l.foldl (fun a c => a * 10 + (c.toNat - 48)) 0)
  else none

/-- Model of Python `int(str)` on plain decimal literals with an optional
sign (the only forms the repository's configuration keys use). -/
def pyIntParse (s : String) : Option Int :=
  match s.data with
  | '-' :: t => (digitsVal t).map (fun n => -(n : Int))
  | '+' :: t => (digitsVal t).map (fun n => (n : Int))
  | l => (digitsVal l).map (fun n => (n : Int))

def natValLoose (l : List Char) : Nat := l.foldl (fun a c => a * 10 + (c.toNat - 48)) 0

/-- Model of Python `float(str)` restricted to plain decimal literals
(optional sign, digits, optional fractional part); the repository's only
float-typed configuration key is `auto_bitrate_factor`. -/
def parseDecCore (l : List Char) : Option ℚ :=
  match l.span Char.isDigit with
  | (ip, []) => (digitsVal ip).map (fun n => (n : ℚ))
  | (ip, '.' :: fp) =>
      if (ip ≠ [] ∨ fp ≠ []) ∧ fp.all Char.isDigit then
        some ((natValLoose ip : ℚ) + (natValLoose fp : ℚ) / (10 : ℚ) ^ fp.length)
      else none
  | _ => none

def parseDecimal (s : String) : Option ℚ :=
  match s.data with
  | '-' :: t => (parseDecCore t).map (fun q => -q)
  | '+' :: t => parseDecCore t
  | l => parseDecCore l

/-- Python `int()` applied to a (modelled) float: truncation toward zero.
The argument is the exact rational standing in for the source's binary64
value; see the module comment for when the two truncate identically. -/
def pyTrunc (q : ℚ) : Int := if 0 ≤ q then ⌊q⌋ else ⌈q⌉

/-! ### Bitrate estimation (`pipeline.py`) -/

/-- `_DEF_BITRATE_MAP` (pipeline.py lines 13-19). -/
def defBitrateMap : List ((Int × Int) × Int) :=
  [((640, 480), 1000), ((800, 600), 1300), ((1280, 720), 2200),
   ((1920, 1080), 4500), ((2560, 1440), 8000)]

def lookupPair : List ((Int × Int) × Int) → Int × Int → Option Int
  | [], _ => none
  | (k', v) :: t, k => if k' = k then some v else lookupPair t k

/-- The tail of `auto_bitrate` shared by its two non-default return paths
(pipeline.py lines 33-35): the high-framerate diminishing-returns correction
followed by the clamp to [300, 25000].  The correction's
`base * (fps / 30.0) * 0.9` is binary64 in the source and exact rational
here; concrete evaluations below keep it away from truncation boundaries. -/
def clampScale (base fps : Int) : Int :=
  let base := if fps ≠ 0 ∧ 30 < fps then
      pyTrunc ((base : ℚ) * ((fps : ℚ) / 30) * (9 / 10))
    else base
  max 300 (min base 25000)

/-- `auto_bitrate` (pipeline.py lines 26-35). Python truthiness of the int
arguments is nonzero-ness; the binary64 products are modelled exactly over
ℚ (see the module comment for the agreement discipline at concrete inputs).
The early `return 2000` path skips the correction and the clamp, exactly as
in the source. -/
def auto_bitrate (width height fps : Int) (factor : ℚ) : Int :=
  if width ≠ 0 ∧ height ≠ 0 ∧ (lookupPair defBitrateMap (width, height)).isSome then
    clampScale ((lookupPair defBitrateMap (width, height)).getD 0) fps
  else if width ≠ 0 ∧ height ≠ 0 ∧ fps ≠ 0 then
    clampScale (pyTrunc ((width : ℚ) * (height : ℚ) * (fps : ℚ) * factor)) fps
  else
    2000

/-- The bitrate-estimation step of `build_pipeline` (pipeline.py lines
119-124): the explicit configured `bitrate_kbps`, else the automatic
estimate, else the fixed default 2000. -/
def bitrateStep (width height framerate explicitKbps : Int)
    (autoEnabled : Bool) (factor : ℚ) : Int :=
  let bitrate := explicitKbps
  let bitrate :=
    if (bitrate = 0 ∧ autoEnabled = true) ∨
        (bitrate = 0 ∧ width ≠ 0 ∧ height ≠ 0 ∧ framerate ≠ 0) then
      auto_bitrate width height framerate factor
    else bitrate
  if bitrate = 0 then 2000 else bitrate

/-! ### Configuration layering (`config.py`)

The merged configuration is a two-level association list (section → key →
value), mirroring the nested Python dicts `build_config` works on.  A value
is a string (from the INI file or the environment), or a typed default /
CLI value. -/

inductive CVal
  | vStr (s : String)
  | vInt (n : Int)
  | vBool (b : Bool)
  | vRat (q : ℚ)
  deriving DecidableEq, Repr

abbrev Sect := List (String × CVal)
abbrev Conf := List (String × Sect)

def getKey {α : Type} : List (String × α) → String → Option α
  | [], _ => none
  | (k', v) :: t, k => if k' = k then some v else getKey t k

/-- Python `d[k] = v`: replace in place, or append when the key is new. -/
def setKey {α : Type} : List (String × α) → String → α → List (String × α)
  | [], k, v => [(k, v)]
  | (k', v') :: t, k, v => if k' = k then (k, v) :: t else (k', v') :: setKey t k v

/-- `merged.setdefault(sec, {}); merged[sec][k] = val` on the nested dict. -/
def setVal (c : Conf) (sec k : String) (v : CVal) : Conf :=
  setKey c sec (setKey ((getKey c sec).getD []) k v)

def getVal (c : Conf) (sec k : String) : Option CVal :=
  (getKey c sec).bind (fun s => getKey s k)

/-- One section/key/value assignment into the merged dict. -/
abbrev SetOp := String × String × CVal

def applySets (ops : List SetOp) (c : Conf) : Conf :=
  ops.foldl (fun c op => setVal c op.1 op.2.1 op.2.2) c

/-- The value the operation list leaves at (sec, k): the last matching
assignment wins, as in sequential dict mutation. -/
def lookupLast : List SetOp → String → String → Option CVal
  | [], _, _ => none
  | op :: t, sec, k =>
      (lookupLast t sec k) <|> (if op.1 = sec ∧ op.2.1 = k then some op.2.2 else none)

/-- `DEFAULTS` (config.py lines 10-47). -/
def defaultsConf : Conf :=
  [("camera",
    [("device", .vStr "auto"), ("width", .vInt 0), ("height", .vInt 0),
     ("framerate", .vInt 0), ("prefer_raw", .vBool false), ("preflight", .vBool true)]),
   ("encoding",
    [("codec", .vStr "auto"), ("bitrate_kbps", .vInt 0), ("auto_bitrate", .vBool true),
     ("auto_bitrate_factor", .vRat (7 / 100000)), ("gop_size", .vInt 60),
     ("tune", .vStr "zerolatency"), ("speed_preset", .vStr "ultrafast"),
     ("profile", .vStr "baseline"), ("hardware_priority", .vStr "auto")]),
   ("rtsp",
    [("port", .vInt 8554), ("mount_path", .vStr "/stream"), ("kill_existing", .vBool false)]),
   ("logging",
    [("level", .vStr "INFO"), ("verbose", .vBool false), ("python_log_file", .vStr ""),
     ("gst_debug_level", .vInt 0), ("gst_debug_categories", .vStr ""),
     ("gst_debug_file", .vStr "")]),
   ("health",
    [("health_port", .vInt 0), ("metrics_port", .vInt 0)])]

def ENV_PREFIX : String := "CAMRTSP_"

/-- The assignment one environment entry contributes (`_apply_env`, config.py
lines 126-134): prefixed keys split at the first `'__'` into a lowercased
section and key; other entries contribute nothing. -/
def decodeEnv (kv : String × String) : Option SetOp :=
  if startsWithStr kv.1 ENV_PREFIX then
    match splitUU (pyLower (strDropChars kv.1 ENV_PREFIX.data.length)).data with
    | some (sec, k) => some (String.mk sec, String.mk k, CVal.vStr kv.2)
    | none => none
  else none

/-- The assignments an INI file contributes (`_load_ini` + the file-merge loop
of `build_config`, config.py lines 112-124 and 158-160): sections and keys
lowercased, values kept as strings. -/
def iniSets (ini : List (String × List (String × String))) : List SetOp :=
  ini.flatMap (fun sv => sv.2.map (fun kv => (pyLower sv.1, pyLower kv.1, CVal.vStr kv.2)))

/-- The assignments the CLI override dict contributes (config.py 162-165). -/
def cliSets (cli : List (String × List (String × CVal))) : List SetOp :=
  cli.flatMap (fun sv => sv.2.map (fun kv => (sv.1, kv.1, kv.2)))

/-- Layer merging of `build_config` (config.py lines 155-165): defaults, then
file values, then environment values, then CLI overrides, applied in order
as sequential dict updates. -/
def mergeConfig (ini : List (String × List (String × String)))
    (env : List (String × String)) (cli : List (String × List (String × CVal))) : Conf :=
  applySets (cliSets cli) (applySets (env.filterMap decodeEnv) (applySets (iniSets ini) defaultsConf))

def intCastKeys : List String :=
  ["width", "height", "framerate", "bitrate_kbps", "gop_size",
   "gst_debug_level", "health_port", "metrics_port"]

def boolCastKeys : List String :=
  ["auto_bitrate", "verbose", "kill_existing", "prefer_raw", "preflight"]

/-- The boolean caster of `_SIMPLE_CASTS`: `v.lower() in {'1','true','yes','on'}`. -/
def pyBoolCast (v : String) : Bool :=
  pyLower v = "1" ∨ pyLower v = "true" ∨ pyLower v = "yes" ∨ pyLower v = "on"

/-- `_coerce` (config.py lines 136-153): keyed casters applied to string
values; a caster that fails leaves the raw string in place. -/
def coerceVal (k : String) (s : String) : CVal :=
  if k ∈ intCastKeys then
    match pyIntParse s with
    | some n => .vInt n
    | none => .vStr s
  else if k ∈ boolCastKeys then .vBool (pyBoolCast s)
  else if k = "auto_bitrate_factor" then
    match parseDecimal s with
    | some q => .vRat q
    | none => .vStr s
  else .vStr s

/-- The type-coercion pass of `build_config` (config.py lines 166-170):
every string value in the merged dict goes through `_coerce`. -/
def coerceConf (c : Conf) : Conf :=
  c.map (fun sv => (sv.1, sv.2.map (fun kv =>
    (kv.1, match kv.2 with
           | CVal.vStr s => coerceVal kv.1 s
           | v => v))))

/-- `build_config` (config.py lines 155-177), with the INI file, the
environment and the CLI overrides supplied as data. -/
def build_config (ini : List (String × List (String × String)))
    (env : List (String × String)) (cli : List (String × List (String × CVal))) : Conf :=
  coerceConf (mergeConfig ini env cli)

/-! ### Mount-path normalization (`RtspCfg.__init__`, config.py lines 73-78) -/

/-- Python `v.rstrip('/')` on a character list: drop every trailing `'/'`. -/
def rstripSlash : List Char → List Char
  | [] => []
  | c :: t =>
      match rstripSlash t with
      | [] => if c = '/' then [] else [c]
      | r => c :: r

/-- `'/' + v if not v.startswith('/') else v` (config.py lines 76-77);
`startswith('/')` is exactly a check of the first character. -/
def slashPrep (l : List Char) : List Char :=
  if l.head? = some '/' then l else '/' :: l

def normalizeChars (l : List Char) : List Char :=
  let l2 := rstripSlash (slashPrep l)
  if l2 = [] then "/stream".data else l2

/-- The normalization `RtspCfg.__init__` applies to `mount_path`
(config.py lines 73-78). -/
def normalizeMountPath (v : String) : String := String.mk (normalizeChars v.data)

/-- The `mount_path` of the `AppConfig` built from a merged dict: the merged
`rtsp.mount_path` string as normalized by `RtspCfg` (config.py lines
171-178); `none` when the merged value is not a string. -/
def resolvedMountPath (c : Conf) : Option String :=
  match getVal c "rtsp" "mount_path" with
  | some (CVal.vStr s) => some (normalizeMountPath s)
  | _ => none

/-! ### Encoder selection and pipeline compilation (`pipeline.py`)

`Gst.ElementFactory.find` (element availability) is modelled as an oracle
`have : String → Bool`, and `_encoder_has_prop` as an oracle
`hasProp : String → String → Bool`. -/

/-- `_HARDWARE_ENCODERS` (pipeline.py lines 9-11). -/
def HARDWARE_ENCODERS : List String :=
  ["v4l2h264enc", "vaapih264enc", "nvh264enc", "omxh264enc", "qsvh264enc"]

/-- The static tuning-property table of `select_hw_encoder`
(pipeline.py lines 45-53). -/
def hwProps (enc : String) : List (String × String) :=
  if enc = "v4l2h264enc" then [("insert-sps-pps", "true")]
  else if enc = "vaapih264enc" then [("rate-control", "cbr")]
  else if enc = "nvh264enc" then [("preset", "low-latency-hq")]
  else if enc = "qsvh264enc" then [("rate-control", "cbr")]
  else []

/-- `select_hw_encoder` (pipeline.py lines 38-55): the first available
candidate of the priority list, with its tuning properties; `none` models
Python's `(None, {})`. -/
def select_hw_encoder (capAvail : String → Bool) (priority : String) :
    Option (String × List (String × String)) :=
  let p := pyLower (pyStrip (if priority = "" then "auto" else priority))
  if p = "off" then none
  else
    let candidates :=
      if p = "auto" then HARDWARE_ENCODERS
      else ((pySplitComma p).map pyStrip).filter (fun c => ¬ c = "")
    (candidates.find? capAvail).map (fun enc => (enc, hwProps enc))

inductive EncoderDecision
  | passthrough
  | software
  | hardware (name : String) (props : List (String × String))
  deriving DecidableEq, Repr

/-- The encoder decision of `build_pipeline` (pipeline.py lines 82 and
92-108): which of the three mutually exclusive pipeline shapes is emitted.
`use_mjpeg_passthrough` is `passthrough`; `use_h264` with a hardware
encoder found is `hardware`, without one `software` (the x264 block). -/
def encoderDecision (capAvail : String → Bool) (codecCfg priority : String) : EncoderDecision :=
  let codec := pyLower codecCfg
  let hw := if codec = "auto" ∨ codec = "h264" then select_hw_encoder capAvail priority else none
  if codec = "h264" then
    match hw with
    | some (e, ps) => .hardware e ps
    | none => .software
  else if codec = "jpeg" then .passthrough
  else
    match hw with
    | some (e, ps) => .hardware e ps
    | none => if capAvail "x264enc" then .software else .passthrough

/-- The `camera` section fields `build_pipeline` reads. -/
structure CameraCfg where
  device : String
  width : Int
  height : Int
  framerate : Int
  prefer_raw : Bool
  preflight : Bool
  deriving DecidableEq, Repr

/-- The `encoding` section fields `build_pipeline` reads. -/
structure EncodingCfg where
  codec : String
  bitrate_kbps : Int
  auto_bitrate : Bool
  auto_bitrate_factor : ℚ
  gop_size : Int
  tune : String
  speed_preset : String
  profile : String
  hardware_priority : String
  deriving DecidableEq, Repr

/-- The configuration object handed to `build_pipeline`; only the `camera`
and `encoding` sections are consumed (the repository's own pipeline test
passes an object with just these two populated). -/
structure AppCfg where
  camera : CameraCfg
  encoding : EncodingCfg
  deriving DecidableEq, Repr

/-- `build_pipeline` (pipeline.py lines 74-153): the declarative pipeline
description string. -/
def build_pipeline (capAvail : String → Bool) (hasProp : String → String → Bool)
    (cfg : AppCfg) : String :=
  let cam := cfg.camera
  let enc := cfg.encoding
  let device := cam.device
  let width := cam.width
  let height := cam.height
  let framerate := cam.framerate
  let prefer_raw := cam.prefer_raw
  let caps_parts : List String :=
    (if 0 < width ∧ 0 < height then
        ["width=" ++ toString width ++ ",height=" ++ toString height] else [])
      ++ (if 0 < framerate then ["framerate=" ++ toString framerate ++ "/1"] else [])
  let capsSuffix := if caps_parts ≠ [] then "," ++ joinSep "," caps_parts else ""
  let raw_caps := "video/x-raw" ++ capsSuffix
  let mjpg_caps := "image/jpeg" ++ capsSuffix
  match encoderDecision capAvail enc.codec enc.hardware_priority with
  | .passthrough =>
      "v4l2src device=" ++ device ++ " ! " ++ mjpg_caps ++
        " ! queue leaky=downstream max-size-buffers=1 ! rtpjpegpay name=pay0 pt=26"
  | decision =>
      let source_caps := if prefer_raw then raw_caps else mjpg_caps
      let decode_chain := if prefer_raw then "" else "jpegdec ! videoconvert ! "
      let source_chain := "v4l2src device=" ++ device ++ " ! " ++ source_caps ++ " ! " ++
        decode_chain ++ "queue leaky=downstream max-size-buffers=1 ! "
      let bitrate := bitrateStep width height framerate enc.bitrate_kbps
        enc.auto_bitrate enc.auto_bitrate_factor
      let profile := if enc.profile = "baseline" ∨ enc.profile = "main" ∨ enc.profile = "high"
        then enc.profile else "baseline"
      match decision with
      | .hardware hw_encoder props =>
          let prop_parts := props.map (fun p => p.1 ++ "=" ++ p.2)
          let prop_parts := prop_parts ++
            (if hasProp hw_encoder "bitrate" then ["bitrate=" ++ toString bitrate]
             else if hasProp hw_encoder "target-bitrate" then
               ["target-bitrate=" ++ toString (bitrate * 1000)]
             else [])
          source_chain ++ hw_encoder ++ " " ++ joinSep " " prop_parts ++
            " ! h264parse config-interval=1 disable-passthrough=true" ++
            " ! rtph264pay name=pay0 pt=96 config-interval=1"
      | _ =>
          source_chain ++ "x264enc bitrate=" ++ toString bitrate ++ " tune=" ++ enc.tune ++
            " speed-preset=" ++ enc.speed_preset ++ " key-int-max=" ++ toString enc.gop_size ++
            " bframes=0 byte-stream=false intra-refresh=true rc-lookahead=0 aud=false" ++
            " threads=2 pass=qual ! video/x-h264,profile=" ++ profile ++
            ",stream-format=avc,alignment=au" ++
            " ! h264parse config-interval=1 disable-passthrough=true" ++
            " ! rtph264pay name=pay0 pt=96 config-interval=1"

/-! ### Device selection and capability preflight (`detect.py`, `cli.py`) -/

/-- `auto_select` (detect.py lines 42-50); `devices` is the enumeration
`list_devices()` returns.  A total function: absence of a camera yields the
hard-coded default path, never an exception. -/
def auto_select (devices : List (String × String)) (config_value : String) : String :=
  if ¬ pyLower config_value = "auto" then config_value
  else
    match devices with
    | [] => "/dev/video0"
    | d :: _ => d.1

/-- The caps string the preflight probe asks the trial pipeline for
(detect.py lines 55-60). -/
def preflightCaps (use_mjpeg : Bool) (width height framerate : Int) : String :=
  let caps_parts : List String :=
    (if 0 < width ∧ 0 < height then
        ["width=" ++ toString width ++ ",height=" ++ toString height] else [])
      ++ (if 0 < framerate then ["framerate=" ++ toString framerate ++ "/1"] else [])
  (if use_mjpeg then "image/jpeg" else "video/x-raw") ++
    (if caps_parts ≠ [] then "," ++ joinSep "," caps_parts else "")

/-- A message the probe's bus loop can pop: an engine error, end-of-stream,
a state change (whose source may or may not be the trial pipeline and whose
new state may or may not be PLAYING), or anything else. -/
inductive GstMsg
  | error (msg : String)
  | eos
  | stateChanged (srcIsPipeline : Bool) (newIsPlaying : Bool)
  | other
  deriving DecidableEq, Repr

/-- Whether one popped message decides the loop of `preflight` (detect.py
lines 74-89), and with what `(ok, reason)`. -/
def decidedMsg : Option GstMsg → Option (Bool × String)
  | some (.error m) => some (false, "error:" ++ m)
  | some .eos => some (true, "eos")
  | some (.stateChanged true true) => some (true, "playing")
  | _ => none

/-- The bus-message loop of `preflight` (detect.py lines 70-93).  Each trace
entry is the message popped in one iteration (or `none` for an empty pop)
together with the wall-clock value `time.time()` reads after it; the loop
breaks optimistically once that exceeds `start + timeout`.  A trace too
short to reach a decision yields `none` (the real loop would keep popping). -/
def probeLoop (start timeout : ℚ) : List (Option GstMsg × ℚ) → Option (Bool × String)
  | [] => none
  | (msg, now) :: rest =>
      match decidedMsg msg with
      | some r => some r
      | none =>
          if start + timeout < now then some (true, "assumed_ok")
          else probeLoop start timeout rest

/-- `preflight` (detect.py lines 53-95): a parse failure short-circuits with
`parse_failed`, otherwise the bus loop runs over the message trace. -/
def preflightResult (parseOk : Bool) (parseErr : String) (start timeout : ℚ)
    (trace : List (Option GstMsg × ℚ)) : Option (Bool × String) :=
  if parseOk then probeLoop start timeout trace
  else some (false, "parse_failed:" ++ parseErr)

/-- The preflight orchestration of `cmd_run` (cli.py lines 82-95), with the
probe supplied as an oracle from the `use_mjpeg` flag to the probe's
`(ok, reason)` result.  Returns the exit code (`some 2` aborts startup,
`none` continues) and the trace of probe invocations (each invocation's
`use_mjpeg` flag, in call order). -/
def runPreflightPhase (codec : String) (doPreflight : Bool)
    (probe : Bool → Bool × String) : Option Nat × List Bool :=
  if doPreflight then
    let use_mjpeg : Bool := codec = "jpeg" ∨ codec = "auto"
    let r1 := probe use_mjpeg
    if r1.1 = false ∧ use_mjpeg = true then
      let r2 := probe false
      if r2.1 = false then (some 2, [use_mjpeg, false])
      else (none, [use_mjpeg, false])
    else if r1.1 = false then (some 2, [use_mjpeg])
    else (none, [use_mjpeg])
  else (none, [])

/-- A concrete configuration for pipeline-compiler witnesses: the repository
defaults with an explicit device, with the codec and hardware priority as
given (the shape the repository's own pipeline test sets up). -/
def cfgWith (c : String) (priority : String) : AppCfg :=
  { camera := { device := "/dev/video0", width := 0, height := 0, framerate := 0,
                prefer_raw := false, preflight := true },
    encoding := { codec := c, bitrate_kbps := 0, auto_bitrate := true,
                  auto_bitrate_factor := 7 / 100000, gop_size := 60, tune := "zerolatency",
                  speed_preset := "ultrafast", profile := "baseline",
                  hardware_priority := priority } }

/-! ## Theorems -/

/-! ### Bitrate estimation: helper lemmas -/

lemma pyTrunc_intCast (n : Int) : pyTrunc (n : ℚ) = n := by
  unfold pyTrunc
  split
  · exact Int.floor_intCast n
  · exact Int.ceil_intCast n

lemma pyTrunc_eq_of_nonneg (q : ℚ) (n : Int) (h0 : 0 ≤ q) (h1 : (n : ℚ) ≤ q)
    (h2 : q < n + 1) : pyTrunc q = n := by
  unfold pyTrunc
  rw [if_pos h0]
  exact Int.floor_eq_iff.2 ⟨h1, h2⟩

lemma pyTrunc_mono {a b : ℚ} (h : a ≤ b) : pyTrunc a ≤ pyTrunc b := by
  unfold pyTrunc
  split <;> split
  all_goals first
  | exact Int.floor_le_floor h
  | exact Int.ceil_le_ceil h
  | (next ha hb => exact absurd (le_trans ha h) hb)
  | (next ha hb =>
      have h1 : (⌈a⌉ : Int) ≤ 0 := Int.ceil_le.2 (by exact_mod_cast le_of_lt (lt_of_not_ge ha))
      have h2 : (0 : Int) ≤ ⌊b⌋ := Int.le_floor.2 (by exact_mod_cast hb)
      omega)

lemma clampScale_range (base fps : Int) :
    300 ≤ clampScale base fps ∧ clampScale base fps ≤ 25000 := by
  unfold clampScale
  exact ⟨le_max_left _ _, max_le (by norm_num) (le_trans (min_le_right _ _) (by norm_num))⟩

lemma clampScale_mono {b1 b2 : Int} (fps : Int) (h : b1 ≤ b2) :
    clampScale b1 fps ≤ clampScale b2 fps := by
  simp only [clampScale]
  by_cases hc : fps ≠ 0 ∧ 30 < fps
  · rw [if_pos hc, if_pos hc]
    have hm : (0 : ℚ) ≤ ((fps : ℚ) / 30) * (9 / 10) := by
      have hfp : (0 : ℚ) < (fps : ℚ) := by exact_mod_cast lt_trans (by norm_num) hc.2
      positivity
    have hq : ((b1 : ℚ) * ((fps : ℚ) / 30) * (9 / 10))
        ≤ ((b2 : ℚ) * ((fps : ℚ) / 30) * (9 / 10)) := by
      rw [mul_assoc, mul_assoc]
      exact mul_le_mul_of_nonneg_right (by exact_mod_cast h) hm
    exact max_le_max (le_refl _) (min_le_min (pyTrunc_mono hq) (le_refl _))
  · rw [if_neg hc, if_neg hc]
    exact max_le_max (le_refl _) (min_le_min h (le_refl _))

lemma auto_bitrate_range (w h f : Int) (factor : ℚ) :
    300 ≤ auto_bitrate w h f factor ∧ auto_bitrate w h f factor ≤ 25000 := by
  unfold auto_bitrate
  split
  · exact clampScale_range _ _
  · split
    · exact clampScale_range _ _
    · norm_num

lemma bitrateStep_auto_eq (w h f : Int) (factor : ℚ) :
    bitrateStep w h f 0 true factor = auto_bitrate w h f factor := by
  simp only [bitrateStep]
  have := auto_bitrate_range w h f factor
  split_ifs <;> first | rfl | omega | tauto

lemma auto_bitrate_formula (w h f : Int) (factor : ℚ)
    (t : lookupPair defBitrateMap (w, h) = none) (hw : w ≠ 0) (hh : h ≠ 0) (hf : f ≠ 0) :
    auto_bitrate w h f factor = clampScale (pyTrunc ((w : ℚ) * (h : ℚ) * (f : ℚ) * factor)) f := by
  unfold auto_bitrate
  rw [t]
  rw [if_neg (by simp), if_pos ⟨hw, hh, hf⟩]

/-- C3: whenever the configured `bitrate_kbps` is nonzero, the
bitrate-estimation step of `build_pipeline` returns exactly that explicit
value, regardless of width, height, framerate, the auto-bitrate flag and the
factor. -/
theorem C3_explicit_bitrate_wins (w h f explicit : Int) (auto : Bool) (factor : ℚ)
    (hex : explicit ≠ 0) : bitrateStep w h f explicit auto factor = explicit := by
  simp only [bitrateStep]
  split_ifs <;> first | rfl | tauto

/-- C3 witness: the explicit value 123 is returned verbatim at a concrete
input. -/
theorem C3_explicit_bitrate_witness : bitrateStep 5 5 5 123 true (7 / 100000) = 123 :=
  C3_explicit_bitrate_wins 5 5 5 123 true (7 / 100000) (by decide)

/-- C4 (amended): for every input whose explicit `bitrate_kbps` is zero, the
estimated bitrate lies in the inclusive range [300, 25000]; a nonzero
explicit value is returned verbatim and is not subject to the clamp. -/
theorem C4_bitrate_range_amended (w h f : Int) (auto : Bool) (factor : ℚ) :
    300 ≤ bitrateStep w h f 0 auto factor ∧ bitrateStep w h f 0 auto factor ≤ 25000 := by
  simp only [bitrateStep]
  have := auto_bitrate_range w h f factor
  split_ifs <;> first | exact this | omega

/-- C4 counterexample: with an explicit `bitrate_kbps` of 26000 the
estimation step returns 26000, which lies outside [300, 25000], so the claim
as stated (range bound for every input) is false. -/
theorem C4_bitrate_range_counterexample :
    bitrateStep 0 0 0 26000 true (7 / 100000) = 26000 ∧
      ¬ bitrateStep 0 0 0 26000 true (7 / 100000) ≤ 25000 := by decide

/-- C5 (amended): on the formula branch (explicit bitrate zero, dimensions
not in the calibration table, width, height and framerate nonzero, fixed
positive factor), the estimate is monotonically non-decreasing in
`width*height*framerate` between inputs sharing the same framerate. -/
theorem C5_formula_monotone_amended (w1 h1 w2 h2 fr : Int) (factor : ℚ)
    (hfac : 0 < factor)
    (t1 : lookupPair defBitrateMap (w1, h1) = none)
    (t2 : lookupPair defBitrateMap (w2, h2) = none)
    (hw1 : w1 ≠ 0) (hh1 : h1 ≠ 0) (hw2 : w2 ≠ 0) (hh2 : h2 ≠ 0) (hfr : fr ≠ 0)
    (hp : w1 * h1 * fr ≤ w2 * h2 * fr) :
    bitrateStep w1 h1 fr 0 true factor ≤ bitrateStep w2 h2 fr 0 true factor := by
  rw [bitrateStep_auto_eq, bitrateStep_auto_eq,
      auto_bitrate_formula w1 h1 fr factor t1 hw1 hh1 hfr,
      auto_bitrate_formula w2 h2 fr factor t2 hw2 hh2 hfr]
  apply clampScale_mono
  apply pyTrunc_mono
  have hc : ((w1 * h1 * fr : Int) : ℚ) ≤ ((w2 * h2 * fr : Int) : ℚ) := by exact_mod_cast hp
  calc (w1 : ℚ) * (h1 : ℚ) * (fr : ℚ) * factor
      = ((w1 * h1 * fr : Int) : ℚ) * factor := by push_cast; ring
    _ ≤ ((w2 * h2 * fr : Int) : ℚ) * factor := mul_le_mul_of_nonneg_right hc hfac.le
    _ = (w2 : ℚ) * (h2 : ℚ) * (fr : ℚ) * factor := by push_cast; ring

/-- C5 witness: the amended monotonicity at a concrete pair of formula-branch
inputs with a common framerate (products 303000 and 606000, both estimates
clamping up to 300; the intermediate values 21.21 and 42.42 are far from
truncation boundaries, so the program computes the same). -/
theorem C5_formula_monotone_witness :
    bitrateStep 101 100 30 0 true (7 / 100000) ≤ bitrateStep 202 100 30 0 true (7 / 100000) :=
  C5_formula_monotone_amended 101 100 202 100 30 (7 / 100000) (by norm_num) (by decide)
    (by decide) (by decide) (by decide) (by decide) (by decide) (by decide) (by decide)

/-- C5 counterexample: two formula-branch inputs with equal products
`width*height*framerate = 12312300` (so the first is ≤ the second) whose
estimates are 1549 and 861: the >30 fps correction makes the estimate depend
on more than the product, so the claim as stated is false.  The intermediate
values 861.861 and 1549.8 are far from truncation boundaries, so the
program's binary64 arithmetic truncates to the same 861 and 1549. -/
theorem C5_formula_monotone_counterexample :
    (1001 : Int) * 205 * 60 ≤ (1001 : Int) * 410 * 30 ∧
    lookupPair defBitrateMap (1001, 205) = none ∧
    lookupPair defBitrateMap (1001, 410) = none ∧
    bitrateStep 1001 205 60 0 true (7 / 100000) = 1549 ∧
    bitrateStep 1001 410 30 0 true (7 / 100000) = 861 ∧
    ¬ bitrateStep 1001 205 60 0 true (7 / 100000)
        ≤ bitrateStep 1001 410 30 0 true (7 / 100000) := by
  have e1 : bitrateStep 1001 205 60 0 true (7 / 100000) = 1549 := by
    rw [bitrateStep_auto_eq,
        auto_bitrate_formula 1001 205 60 (7 / 100000) (by decide) (by decide) (by decide)
          (by decide)]
    rw [pyTrunc_eq_of_nonneg (((1001 : Int) : ℚ) * ((205 : Int) : ℚ) * ((60 : Int) : ℚ)
          * (7 / 100000)) 861 (by norm_num) (by norm_num) (by norm_num)]
    simp only [clampScale]
    rw [if_pos (by decide : (60 : Int) ≠ 0 ∧ 30 < (60 : Int))]
    rw [pyTrunc_eq_of_nonneg (((861 : Int) : ℚ) * (((60 : Int) : ℚ) / 30) * (9 / 10)) 1549
          (by norm_num) (by norm_num) (by norm_num)]
    decide
  have e2 : bitrateStep 1001 410 30 0 true (7 / 100000) = 861 := by
    rw [bitrateStep_auto_eq,
        auto_bitrate_formula 1001 410 30 (7 / 100000) (by decide) (by decide) (by decide)
          (by decide)]
    rw [pyTrunc_eq_of_nonneg (((1001 : Int) : ℚ) * ((410 : Int) : ℚ) * ((30 : Int) : ℚ)
          * (7 / 100000)) 861 (by norm_num) (by norm_num) (by norm_num)]
    simp only [clampScale]
    rw [if_neg (by decide : ¬ ((30 : Int) ≠ 0 ∧ 30 < (30 : Int)))]
    decide
  refine ⟨by decide, by decide, by decide, e1, e2, ?_⟩
  rw [e1, e2]
  decide

/-! ### Mount-path normalization: helper lemmas -/

lemma slashPrep_head (l : List Char) : (slashPrep l).head? = some '/' := by
  unfold slashPrep
  split
  · assumption
  · rfl

lemma rstripSlash_head (l : List Char) :
    rstripSlash l = [] ∨ (rstripSlash l).head? = l.head? := by
  cases l with
  | nil => exact Or.inl rfl
  | cons c t =>
      rcases hr : rstripSlash t with _ | ⟨a, r⟩
      · by_cases hc : c = '/' <;> simp [rstripSlash, hr, hc]
      · simp [rstripSlash, hr]

lemma rstripSlash_getLast (l : List Char) : ¬ (rstripSlash l).getLast? = some '/' := by
  induction l with
  | nil => simp [rstripSlash]
  | cons c t ih =>
      rcases hr : rstripSlash t with _ | ⟨a, r⟩
      · by_cases hc : c = '/' <;> simp [rstripSlash, hr, hc]
      · rw [hr] at ih
        simp only [rstripSlash, hr]
        rw [List.getLast?_cons_cons]
        exact ih

lemma rstripSlash_replicate (n : Nat) : rstripSlash (List.replicate n '/') = [] := by
  induction n with
  | zero => rfl
  | succ m ih => simp [List.replicate_succ, rstripSlash, ih]

/-- C1 (amended): for every mount-path string the normalized value begins
with at least one leading `'/'` (the code prepends a slash only when the
value does not already start with one, so pre-existing double slashes are
preserved), never ends with `'/'`, and any value consisting solely of
slashes (in particular the empty string) collapses to `"/stream"`. -/
theorem C1_mount_path_amended (v : String) (n : Nat) :
    (normalizeMountPath v).data.head? = some '/' ∧
    ¬ (normalizeMountPath v).data.getLast? = some '/' ∧
    normalizeMountPath (String.mk (List.replicate n '/')) = "/stream" := by
  refine ⟨?_, ?_, ?_⟩
  · show (normalizeChars v.data).head? = some '/'
    simp only [normalizeChars]
    split
    · decide
    · next h2 =>
        rcases rstripSlash_head (slashPrep v.data) with h | h
        · exact absurd h h2
        · rw [h, slashPrep_head]
  · show ¬ (normalizeChars v.data).getLast? = some '/'
    simp only [normalizeChars]
    split
    · decide
    · exact rstripSlash_getLast _
  · show String.mk (normalizeChars (List.replicate n '/')) = "/stream"
    have hsp : rstripSlash (slashPrep (List.replicate n '/')) = [] := by
      cases n with
      | zero => rfl
      | succ m =>
          have hpl : slashPrep (List.replicate (m + 1) '/') = List.replicate (m + 1) '/' := by
            simp [slashPrep, List.replicate_succ]
          rw [hpl, rstripSlash_replicate]
    simp only [normalizeChars, hsp]
    rfl

/-- C1 counterexample: a CLI override `mount_path = "//a"` resolves to
`"//a"`, whose first two characters are both `'/'`, so the mount path does
not always begin with exactly one leading slash. -/
theorem C1_mount_path_counterexample :
    (resolvedMountPath (build_config [] [] [("rtsp", [("mount_path", CVal.vStr "//a")])])).getD ""
      = "//a" ∧
    ((resolvedMountPath (build_config [] [] [("rtsp", [("mount_path", CVal.vStr "//a")])])).getD
      "").data.take 2 = ['/', '/'] := by decide

/-! ### Configuration layering: helper lemmas -/

lemma getKey_setKey_self {α : Type} (d : List (String × α)) (k : String) (v : α) :
    getKey (setKey d k v) k = some v := by
  induction d with
  | nil => simp [setKey, getKey]
  | cons p t ih =>
      obtain ⟨pk, pv⟩ := p
      by_cases h : pk = k <;> simp [setKey, getKey, h, ih]

lemma getKey_setKey_ne {α : Type} (d : List (String × α)) (k k' : String) (v : α)
    (h : ¬ k = k') : getKey (setKey d k v) k' = getKey d k' := by
  induction d with
  | nil => simp [setKey, getKey, h]
  | cons p t ih =>
      obtain ⟨pk, pv⟩ := p
      simp only [setKey]
      by_cases h1 : pk = k
      · subst h1
        rw [if_pos rfl]
        simp only [getKey]
        rw [if_neg h, if_neg h]
      · rw [if_neg h1]
        simp only [getKey]
        by_cases h2 : pk = k'
        · rw [if_pos h2, if_pos h2]
        · rw [if_neg h2, if_neg h2, ih]

lemma getVal_setVal (c : Conf) (s k sec key : String) (v : CVal) :
    getVal (setVal c s k v) sec key =
      if s = sec ∧ k = key then some v else getVal c sec key := by
  by_cases hs : s = sec
  · subst hs
    show (getKey (setKey c s (setKey ((getKey c s).getD []) k v)) s).bind _ = _
    rw [getKey_setKey_self]
    show getKey (setKey ((getKey c s).getD []) k v) key = _
    by_cases hk : k = key
    · subst hk
      rw [getKey_setKey_self, if_pos ⟨rfl, rfl⟩]
    · rw [getKey_setKey_ne _ _ _ _ hk, if_neg (fun hx => hk hx.2)]
      show _ = getVal c s key
      unfold getVal
      cases hcs : getKey c s <;> simp [getKey]
  · show (getKey (setKey c s (setKey ((getKey c s).getD []) k v)) sec).bind _ = _
    rw [getKey_setKey_ne _ _ _ _ hs, if_neg (fun hx => hs hx.1)]
    rfl

lemma getVal_applySets (ops : List SetOp) (c : Conf) (sec key : String) :
    getVal (applySets ops c) sec key =
      ((lookupLast ops sec key) <|> getVal c sec key) := by
  induction ops generalizing c with
  | nil => simp [applySets, lookupLast]
  | cons op t ih =>
      obtain ⟨s, k, v⟩ := op
      show getVal (applySets t (setVal c s k v)) sec key = _
      rw [ih]
      simp only [lookupLast]
      rw [getVal_setVal]
      rcases hll : lookupLast t sec key with _ | x
      · simp only [Option.none_orElse]
        by_cases hc : s = sec ∧ k = key <;> simp [hc]
      · simp

/-- C2: the merged configuration realizes the layering precedence defaults →
file → environment → CLI at every section/key (each layer overwrites only
the keys it explicitly sets, later layers winning); in particular, with a
file width of 640 and an environment width of 800, a CLI width of 1024 wins,
and without the CLI override the environment's 800 wins. -/
theorem C2_layering_precedence
    (ini : List (String × List (String × String))) (env : List (String × String))
    (cli : List (String × List (String × CVal))) (sec key : String) :
    getVal (mergeConfig ini env cli) sec key =
      ((lookupLast (cliSets cli) sec key) <|> (lookupLast (env.filterMap decodeEnv) sec key)
        <|> (lookupLast (iniSets ini) sec key) <|> (getVal defaultsConf sec key)) ∧
    getVal (build_config [("camera", [("width", "640")])] [("CAMRTSP_CAMERA__WIDTH", "800")]
        [("camera", [("width", CVal.vInt 1024)])]) "camera" "width" = some (CVal.vInt 1024) ∧
    getVal (build_config [("camera", [("width", "640")])] [("CAMRTSP_CAMERA__WIDTH", "800")]
        []) "camera" "width" = some (CVal.vInt 800) := by
  refine ⟨?_, by decide, by decide⟩
  unfold mergeConfig
  rw [getVal_applySets, getVal_applySets, getVal_applySets]

/-! ### Encoder selection -/

lemma select_auto_reduce (capAvail : String → Bool) :
    select_hw_encoder capAvail "auto"
      = (HARDWARE_ENCODERS.find? capAvail).map (fun enc => (enc, hwProps enc)) := rfl

lemma encoderDecision_auto_reduce (capAvail : String → Bool) :
    encoderDecision capAvail "auto" "auto"
      = (match select_hw_encoder capAvail "auto" with
         | some (e, ps) => .hardware e ps
         | none => if capAvail "x264enc" then .software else .passthrough) := rfl

/-- C6: with codec `"auto"` and priority `"auto"` the encoder decision is a
deterministic function of the capability set: with no hardware candidate and
no software encoder available it is always Passthrough, and with exactly one
hardware candidate available (software available or not) that candidate is
always chosen. -/
theorem C6_auto_encoder_fallback :
    (∀ capAvail : String → Bool,
      (∀ e ∈ HARDWARE_ENCODERS, capAvail e = false) → capAvail "x264enc" = false →
        encoderDecision capAvail "auto" "auto" = .passthrough) ∧
    (∀ (capAvail : String → Bool) (c : String),
      c ∈ HARDWARE_ENCODERS → capAvail c = true →
      (∀ c' ∈ HARDWARE_ENCODERS, ¬ c' = c → capAvail c' = false) →
        encoderDecision capAvail "auto" "auto" = .hardware c (hwProps c)) := by
  constructor
  · intro cap hhw hx
    have h1 := hhw "v4l2h264enc" (by decide)
    have h2 := hhw "vaapih264enc" (by decide)
    have h3 := hhw "nvh264enc" (by decide)
    have h4 := hhw "omxh264enc" (by decide)
    have h5 := hhw "qsvh264enc" (by decide)
    have hsel : select_hw_encoder cap "auto" = none := by
      rw [select_auto_reduce]
      simp [HARDWARE_ENCODERS, List.find?, h1, h2, h3, h4, h5]
    rw [encoderDecision_auto_reduce, hsel, hx]
    rfl
  · intro cap c hc hcap hother
    simp only [HARDWARE_ENCODERS, List.mem_cons, List.not_mem_nil, or_false] at hc
    rcases hc with rfl | rfl | rfl | rfl | rfl
    · have hsel : select_hw_encoder cap "auto"
          = some ("v4l2h264enc", hwProps "v4l2h264enc") := by
        rw [select_auto_reduce]
        simp [HARDWARE_ENCODERS, List.find?, hcap]
      rw [encoderDecision_auto_reduce, hsel]
    · have hA := hother "v4l2h264enc" (by decide) (by decide)
      have hsel : select_hw_encoder cap "auto"
          = some ("vaapih264enc", hwProps "vaapih264enc") := by
        rw [select_auto_reduce]
        simp [HARDWARE_ENCODERS, List.find?, hA, hcap]
      rw [encoderDecision_auto_reduce, hsel]
    · have hA := hother "v4l2h264enc" (by decide) (by decide)
      have hB := hother "vaapih264enc" (by decide) (by decide)
      have hsel : select_hw_encoder cap "auto"
          = some ("nvh264enc", hwProps "nvh264enc") := by
        rw [select_auto_reduce]
        simp [HARDWARE_ENCODERS, List.find?, hA, hB, hcap]
      rw [encoderDecision_auto_reduce, hsel]
    · have hA := hother "v4l2h264enc" (by decide) (by decide)
      have hB := hother "vaapih264enc" (by decide) (by decide)
      have hC := hother "nvh264enc" (by decide) (by decide)
      have hsel : select_hw_encoder cap "auto"
          = some ("omxh264enc", hwProps "omxh264enc") := by
        rw [select_auto_reduce]
        simp [HARDWARE_ENCODERS, List.find?, hA, hB, hC, hcap]
      rw [encoderDecision_auto_reduce, hsel]
    · have hA := hother "v4l2h264enc" (by decide) (by decide)
      have hB := hother "vaapih264enc" (by decide) (by decide)
      have hC := hother "nvh264enc" (by decide) (by decide)
      have hD := hother "omxh264enc" (by decide) (by decide)
      have hsel : select_hw_encoder cap "auto"
          = some ("qsvh264enc", hwProps "qsvh264enc") := by
        rw [select_auto_reduce]
        simp [HARDWARE_ENCODERS, List.find?, hA, hB, hC, hD, hcap]
      rw [encoderDecision_auto_reduce, hsel]

/-! ### Device selection -/

/-- C9 (amended): `auto_select` returns the configured value unchanged for
every value that is not case-insensitively equal to `"auto"` (with no
validation of existence), and it is a total function that returns the
hard-coded `/dev/video0` when the value lowercases to `"auto"` and the
enumeration is empty. -/
theorem C9_device_resolve_amended :
    (∀ (devices : List (String × String)) (v : String),
        ¬ pyLower v = "auto" → auto_select devices v = v) ∧
    (∀ v : String, pyLower v = "auto" → auto_select [] v = "/dev/video0") := by
  constructor
  · intro devices v h
    unfold auto_select
    rw [if_pos h]
  · intro v h
    unfold auto_select
    rw [if_neg (not_not_intro h)]

/-- C9 counterexample: `"AUTO"` is not the literal token `"auto"`, yet
`auto_select` does not return it unchanged — matching is case-insensitive,
so it enters the auto path and yields the default device. -/
theorem C9_device_resolve_counterexample :
    ¬ ("AUTO" = "auto") ∧ auto_select [] "AUTO" = "/dev/video0" ∧
      ¬ auto_select [] "AUTO" = "AUTO" := by decide

/-! ### Preflight orchestration -/

/-- C7: with preflight enabled, an MJPEG-implying codec (`jpeg` or `auto`)
whose first probe fails triggers exactly one retry, invoked with the
raw-format flag; a failing raw retry aborts with exit status 2 (and a
succeeding one continues); a non-MJPEG codec's single probe failure is
immediately fatal with exit status 2 and no retry.  The raw-flagged probe
indeed builds `video/x-raw` caps. -/
theorem C7_preflight_retry_policy :
    (∀ (codec : String) (probe : Bool → Bool × String),
        (codec = "jpeg" ∨ codec = "auto") → (probe true).1 = false →
          (runPreflightPhase codec true probe).2 = [true, false] ∧
          ((probe false).1 = false → (runPreflightPhase codec true probe).1 = some 2) ∧
          ((probe false).1 = true → (runPreflightPhase codec true probe).1 = none)) ∧
    (∀ (codec : String) (probe : Bool → Bool × String),
        ¬ (codec = "jpeg" ∨ codec = "auto") → (probe false).1 = false →
          runPreflightPhase codec true probe = (some 2, [false])) ∧
    (∀ (width height framerate : Int),
        (preflightCaps false width height framerate).data.take 11 = "video/x-raw".data) := by
  refine ⟨?_, ?_, ?_⟩
  · intro codec probe hm hfail
    have hb : (decide (codec = "jpeg" ∨ codec = "auto")) = true := decide_eq_true hm
    simp only [runPreflightPhase, hb, if_pos rfl, hfail]
    rcases h2 : (probe false).1 with _ | _
    · simp [h2]
    · simp [h2]
  · intro codec probe hm hfail
    have hb : (decide (codec = "jpeg" ∨ codec = "auto")) = false := decide_eq_false hm
    simp only [runPreflightPhase, hb, if_pos rfl, hfail]
    simp
  · intro w h f
    simp only [preflightCaps]
    rw [show ((if (false : Bool) then "image/jpeg" else "video/x-raw") : String) = "video/x-raw"
        from rfl]
    split
    · rw [String.data_append]
      have := List.take_left "video/x-raw".data
        ("," ++ joinSep ","
          ((if 0 < w ∧ 0 < h then ["width=" ++ toString w ++ ",height=" ++ toString h] else [])
            ++ if 0 < f then ["framerate=" ++ toString f ++ "/1"] else [])).data
      simpa using this
    · rfl

/-! ### Preflight probe state machine -/

lemma decidedMsg_false {m : Option GstMsg} {r : String}
    (h : decidedMsg m = some (false, r)) : ∃ s, r = "error:" ++ s := by
  rcases m with _ | g
  · simp [decidedMsg] at h
  · cases g with
    | error s =>
        simp only [decidedMsg, Option.some.injEq, Prod.mk.injEq] at h
        exact ⟨s, h.2.symm⟩
    | eos => simp [decidedMsg] at h
    | stateChanged a b => cases a <;> cases b <;> simp [decidedMsg] at h
    | other => simp [decidedMsg] at h

lemma probeLoop_false {start timeout : ℚ} :
    ∀ (trace : List (Option GstMsg × ℚ)) (r : String),
      probeLoop start timeout trace = some (false, r) → ∃ s, r = "error:" ++ s := by
  intro trace
  induction trace with
  | nil => intro r h; simp [probeLoop] at h
  | cons x t ih =>
      intro r h
      obtain ⟨m, now⟩ := x
      rw [probeLoop] at h
      split at h
      · next v hv =>
          rw [Option.some.inj h] at hv
          exact decidedMsg_false hv
      · split at h
        · simp at h
        · exact ih r h

/-- C8: if the trace of bus messages contains no deciding message (no error,
no EOS, no pipeline-reaching-PLAYING) up to a point where the wall clock
exceeds the 5-second budget, the probe returns `ok = true` with reason
`assumed_ok`; and a probe can only return `ok = false` with a reason that is
a parse failure or an engine error — never from the timeout. -/
theorem C8_preflight_timeout_optimism :
    (∀ (start : ℚ) (pre : List (Option GstMsg × ℚ)) (e : Option GstMsg × ℚ)
        (rest : List (Option GstMsg × ℚ)),
        (∀ x ∈ pre, decidedMsg x.1 = none) → decidedMsg e.1 = none → start + 5 < e.2 →
          preflightResult true "" start 5 (pre ++ e :: rest) = some (true, "assumed_ok")) ∧
    (∀ (parseOk : Bool) (parseErr : String) (start timeout : ℚ)
        (trace : List (Option GstMsg × ℚ)) (r : String),
        preflightResult parseOk parseErr start timeout trace = some (false, r) →
          (∃ s, r = "parse_failed:" ++ s) ∨ (∃ s, r = "error:" ++ s)) := by
  constructor
  · intro start pre e rest hpre he ht
    unfold preflightResult
    rw [if_pos rfl]
    induction pre with
    | nil =>
        obtain ⟨m, now⟩ := e
        rw [List.nil_append, probeLoop]
        simp only at he
        simp only [he]
        rw [if_pos ht]
    | cons x t ih =>
        obtain ⟨m, now⟩ := x
        rw [List.cons_append, probeLoop]
        have hx := hpre (m, now) (by simp)
        simp only at hx
        simp only [hx]
        split
        · rfl
        · exact ih (fun y hy => hpre y (by simp [hy]))
  · intro pok perr start timeout trace r h
    unfold preflightResult at h
    rcases pok with _ | _
    · rw [if_neg (by simp)] at h
      left
      exact ⟨perr, (Prod.mk.injEq _ _ _ _ ▸ Option.some.inj h).2.symm⟩
    · rw [if_pos rfl] at h
      right
      exact probeLoop_false trace r h

/-! ### Pipeline compilation for unrecognized codecs -/

lemma encoderDecision_no_hw (capAvail : String → Bool) (priority : String) (c : String)
    (k1 : ¬ pyLower c = "h264") (k2 : ¬ pyLower c = "jpeg")
    (hsel : select_hw_encoder capAvail priority = none) :
    encoderDecision capAvail c priority
      = (if capAvail "x264enc" then .software else .passthrough) := by
  unfold encoderDecision
  rw [if_neg k1, if_neg k2]
  by_cases ha : pyLower c = "auto"
  · rw [if_pos (Or.inl ha), hsel]
  · rw [if_neg (by rintro (h | h) <;> [exact ha h; exact k1 h])]

/-- C10 (amended): a codec value whose lowercasing is neither `"h264"` nor
`"jpeg"` compiles to exactly the same pipeline description as `"auto"`
whenever hardware-encoder selection yields no candidate (priority `"off"` or
no hardware capability available); with a hardware candidate available the
two differ, because the unrecognized codec skips hardware selection. -/
theorem C10_unrecognized_codec_amended (capAvail : String → Bool)
    (hasProp : String → String → Bool) (cfg : AppCfg) (c : String)
    (h1 : ¬ pyLower c = "h264") (h2 : ¬ pyLower c = "jpeg")
    (hsel : select_hw_encoder capAvail cfg.encoding.hardware_priority = none) :
    build_pipeline capAvail hasProp
        { cfg with encoding := { cfg.encoding with codec := c } } =
      build_pipeline capAvail hasProp
        { cfg with encoding := { cfg.encoding with codec := "auto" } } := by
  obtain ⟨cam, enc⟩ := cfg
  obtain ⟨codec0, b, ab, abf, g, tn, sp, pf, hp⟩ := enc
  dsimp only [build_pipeline]
  rw [encoderDecision_no_hw capAvail hp c h1 h2 hsel,
      encoderDecision_no_hw capAvail hp "auto" (by decide) (by decide) hsel]

/-- C10 witness: with no capabilities available, codec `"h265"` compiles to
the same description as `"auto"`. -/
theorem C10_unrecognized_codec_witness :
    build_pipeline (fun _ => false) (fun _ _ => false)
        { cfgWith "x" "auto" with
          encoding := { (cfgWith "x" "auto").encoding with codec := "h265" } } =
      build_pipeline (fun _ => false) (fun _ _ => false)
        { cfgWith "x" "auto" with
          encoding := { (cfgWith "x" "auto").encoding with codec := "auto" } } :=
  C10_unrecognized_codec_amended (fun _ => false) (fun _ _ => false) (cfgWith "x" "auto")
    "h265" (by decide) (by decide) (by decide)

/-- C10 counterexample: with a hardware encoder and x264 both available,
codec `"h265"` compiles to a different pipeline description than `"auto"`
(software x264 versus the hardware encoder), so unrecognized codecs are not
treated exactly like `"auto"` under every capability set. -/
theorem C10_unrecognized_codec_counterexample :
    ¬ build_pipeline (fun s => s = "v4l2h264enc" ∨ s = "x264enc") (fun _ _ => false)
        (cfgWith "h265" "auto")
      = build_pipeline (fun s => s = "v4l2h264enc" ∨ s = "x264enc") (fun _ _ => false)
        (cfgWith "auto" "auto") := by decide

end CamRtsp
